import Mathlib

/-!
Shallow embedding of `src/mongo/db/s/config/configsvr_enable_sharding_command.cpp`
(the `_configsvrEnableSharding` command of a sharded cluster's config server).

The command's `run` method is modelled as a pure state transformer over an
explicit cluster state (config.databases store, catalog cache, registered
shards, held distributed locks), returning an outcome (success or the error a
`uassert` would raise), the post state, and a trace of the externally visible
effects (store update, lock acquire/release, catalog-manager invocation, cache
purge, audit log).  External nondeterminism (cluster role of the node, lock
availability, catalog-manager failure, the placement policy's shard choice) is
an explicit `Env` argument.
-/

namespace ConfigsvrEnableSharding

/-- Error codes appearing in the command's `uassert`s, plus the codes that the
distributed lock manager and the sharding catalog manager can propagate. -/
inductive ErrorCode where
  | Unauthorized
  | IllegalOperation
  | InvalidOptions
  | InvalidNamespace
  | BadValue
  | LockTimeout
  | ShardNotFound
  deriving DecidableEq

/-- An error status: code plus the (stream-built) message.  For the write
concern error the source appends the whole `cmdObj`; the model keeps the fixed
message text. -/
structure ErrorInfo where
  code : ErrorCode
  msg : String
  deriving DecidableEq

/-- Result of one call: `run` returns `true` on success, and every failure is a
`uassert`-style exception carrying an `ErrorInfo`. -/
inductive Outcome where
  | ok
  | err (e : ErrorInfo)
  deriving DecidableEq

/-- The node's cluster role (`serverGlobalParams.clusterRole`). -/
inductive ClusterRole where
  | ConfigServer
  | ShardServer
  deriving DecidableEq

/-- A document of `config.databases` (`DatabaseType`): name, primary shard and
the `sharded` flag this protocol sets. -/
structure DatabaseRecord where
  name : String
  primaryShardId : String
  sharded : Bool
  deriving DecidableEq

/-- Cluster state visible to the command: the `config.databases` store, the
names present in this node's catalog cache, the shard registry, and the
resource names of currently held distributed locks. -/
structure ClusterState where
  store : List DatabaseRecord
  cache : List String
  registeredShards : List String
  lockHeld : List String
  deriving DecidableEq

/-- The parsed command object: target database (the command's first element),
the optional `primaryShard` field, and the write concern mode string. -/
structure Request where
  dbname : String
  primaryShard : Option String
  wMode : String
  deriving DecidableEq

/-- External nondeterminism of one call: the node's role, whether the
distributed lock on the database can be acquired within the timeout, whether
the catalog manager's `enableSharding` fails (and with what error), and the
shard the placement policy would choose when none is requested. -/
structure Env where
  clusterRole : ClusterRole
  lockAvailable : Bool
  cmError : Option ErrorInfo
  policyShard : String
  deriving DecidableEq

/-- Externally visible effects, in the order they happen. -/
inductive Event where
  | storeUpdate (dbname : String)
  | lockAcquire (resource : String)
  | lockRelease (resource : String)
  | catalogEnable (dbname : String)
  | cachePurge (dbname : String)
  | auditLog (dbname : String)
  deriving DecidableEq

/-- Modelled from the spec: `NamespaceString::validDBName` is not under `src/`;
the spec requires identifier validation by charset and length (`$` is allowed
because the call site passes `DollarInDbNameBehavior::Allow`). -/
def validDBName (db : String) : Bool :=
  0 < db.length && db.length < 64 &&
    db.toList.all (fun c => !(c == '/' || c == '\\' || c == '.' || c == ' ' || c == '"'))

/-- Modelled from the spec: `ShardId::isValid` is not under `src/`; per the
spec a supplied primary shard identifier "must identify a currently registered
shard". -/
def shardIdIsValid (registeredShards : List String) (s : String) : Bool :=
  registeredShards.contains s

/-- The `ShardId` value the command builds: the `primaryShard` field's string
when present, else the default (empty) `ShardId`. -/
def shardIdOf (req : Request) : String :=
  match req.primaryShard with
  | some s => s
  | none => ""

/-- The optimistic update's query filter: `name == dbname`, plus
`primary == shardId` when a valid shard id was supplied. -/
def updateFilter (dbname shardId : String) (shardValid : Bool)
    (r : DatabaseRecord) : Bool :=
  r.name == dbname && (!shardValid || r.primaryShardId == shardId)

/-- The update modification `{$set: {sharded: true}}` applied to one document:
only the `sharded` field changes. -/
def setShardedTrue (r : DatabaseRecord) : DatabaseRecord :=
  { r with sharded := true }

/-- Semantics of the conditional update with `multi:false`, `upsert:false`:
set `sharded := true` on the first document matching the filter; the first
component is the matched count `n` (0 or 1), and no document is inserted. -/
def updateFirstMatch (p : DatabaseRecord → Bool) :
    List DatabaseRecord → Nat × List DatabaseRecord
  | [] => (0, [])
  | r :: rs =>
    if p r then (1, setShardedTrue r :: rs)
    else
      let rest := updateFirstMatch p rs
      (rest.1, r :: rest.2)

/-- Modelled from the spec: `ShardingCatalogManager::enableSharding` is not
under `src/`.  Per the spec it is an idempotent create-or-update: if a record
for the database exists it is marked sharded (it must not assume the record is
absent); otherwise a record is created with `sharded = true` and the requested
primary shard, or a policy-chosen one when none was requested. -/
def catalogManagerEnableSharding (policyShard dbname shardId : String)
    (shardValid : Bool) (store : List DatabaseRecord) : List DatabaseRecord :=
  match store.find? (fun r => r.name == dbname) with
  | some _ => store.map (fun r => if r.name == dbname then { r with sharded := true } else r)
  | none => store ++ [⟨dbname, if shardValid then shardId else policyShard, true⟩]

/-- `CatalogCache::purgeDatabase`: drop any cached entry for the database;
a no-op when none exists. -/
def purgeDatabase (dbname : String) (st : ClusterState) : ClusterState :=
  { st with cache := st.cache.filter (fun c => !(c == dbname)) }

/-- Lookup of the (first) record for a database name. -/
def findDb (store : List DatabaseRecord) (dbname : String) : Option DatabaseRecord :=
  store.find? (fun r => r.name == dbname)

/-- Whether the store holds a record for `dbname` with `sharded = true`. -/
def dbSharded (store : List DatabaseRecord) (dbname : String) : Bool :=
  (findDb store dbname).any (fun r => r.sharded)

/-- Lines 139-171 of the source, after all preconditions have passed: the
optimistic update, the fallback locked path (the scoped lock's destructor
releases the lock on both the success and the error exit), and the audit log
on success.  The `ON_BLOCK_EXIT` purge is added by `run` around this body. -/
def runBody (env : Env) (dbname shardId : String) (st : ClusterState) :
    Outcome × ClusterState × List Event :=
  let shardValid := shardIdIsValid st.registeredShards shardId
  let res := updateFirstMatch (updateFilter dbname shardId shardValid) st.store
  let st1 := { st with store := res.2 }
  if res.1 ≠ 1 then
    if env.lockAvailable = false then
      (Outcome.err ⟨ErrorCode.LockTimeout,
        "timed out waiting for " ++ dbname⟩, st1, [Event.storeUpdate dbname])
    else
      let st2 := { st1 with lockHeld := dbname :: st1.lockHeld }
      match env.cmError with
      | some e =>
        (Outcome.err e, { st2 with lockHeld := st2.lockHeld.erase dbname },
          [Event.storeUpdate dbname, Event.lockAcquire dbname,
           Event.catalogEnable dbname, Event.lockRelease dbname])
      | none =>
        let store2 := catalogManagerEnableSharding env.policyShard dbname shardId
          shardValid st2.store
        (Outcome.ok,
          { st2 with store := store2, lockHeld := st2.lockHeld.erase dbname },
          [Event.storeUpdate dbname, Event.lockAcquire dbname,
           Event.catalogEnable dbname, Event.lockRelease dbname,
           Event.auditLog dbname])
  else
    (Outcome.ok, st1, [Event.storeUpdate dbname, Event.auditLog dbname])

/-- `ConfigSvrEnableShardingCommand::run` (lines 96-172): the precondition
`uassert`s in source order (config-server role, majority write concern, shard
id validity when supplied, database name validity, reserved-name exclusion),
then the body wrapped in the `ON_BLOCK_EXIT` that purges the catalog cache
entry on every exit. -/
def run (env : Env) (req : Request) (st : ClusterState) :
    Outcome × ClusterState × List Event :=
  if env.clusterRole ≠ ClusterRole.ConfigServer then
    (Outcome.err ⟨ErrorCode.IllegalOperation,
      "_configsvrEnableSharding can only be run on config servers"⟩, st, [])
  else if req.wMode ≠ "majority" then
    (Outcome.err ⟨ErrorCode.InvalidOptions,
      "_configsvrEnableSharding must be called with majority writeConcern"⟩, st, [])
  else if req.primaryShard.isSome ∧ shardIdIsValid st.registeredShards (shardIdOf req) = false then
    (Outcome.err ⟨ErrorCode.BadValue, "invalid shard name: " ++ shardIdOf req⟩, st, [])
  else if validDBName req.dbname = false then
    (Outcome.err ⟨ErrorCode.InvalidNamespace,
      "invalid db name specified: " ++ req.dbname⟩, st, [])
  else if req.dbname = "admin" ∨ req.dbname = "local" then
    (Outcome.err ⟨ErrorCode.InvalidOptions,
      "can't shard " ++ req.dbname ++ " database"⟩, st, [])
  else
    let body := runBody env req.dbname (shardIdOf req) st
    (body.1, purgeDatabase req.dbname body.2.1,
      body.2.2 ++ [Event.cachePurge req.dbname])

/-- `ConfigSvrEnableShardingCommand::checkAuthForCommand` (lines 81-90):
`Unauthorized` unless the client is authorized for the internal action on the
target database's resource. -/
def checkAuthForCommand (authorizedInternalOn : String → Bool)
    (dbname : String) : Outcome :=
  if authorizedInternalOn dbname = false then
    Outcome.err ⟨ErrorCode.Unauthorized, "Unauthorized"⟩
  else Outcome.ok

/-- Modelled from the spec: the command dispatch layer that invokes
`checkAuthForCommand` before `run` is not under `src/`; per the spec,
authorization is precondition 1, checked before any other effect.  An
unauthorized call returns before `run` executes anything. -/
def enableShardingCall (env : Env) (authorizedInternalOn : String → Bool)
    (req : Request) (st : ClusterState) : Outcome × ClusterState × List Event :=
  match checkAuthForCommand authorizedInternalOn req.dbname with
  | Outcome.err e => (Outcome.err e, st, [])
  | Outcome.ok => run env req st

/-- The five preconditions of §4.1 as the source orders and states them. -/
def preconditionsPass (env : Env) (req : Request) (st : ClusterState) : Prop :=
  env.clusterRole = ClusterRole.ConfigServer ∧
  req.wMode = "majority" ∧
  ¬(req.primaryShard.isSome ∧ shardIdIsValid st.registeredShards (shardIdOf req) = false) ∧
  validDBName req.dbname = true ∧
  req.dbname ≠ "admin" ∧ req.dbname ≠ "local"

instance (env : Env) (req : Request) (st : ClusterState) :
    Decidable (preconditionsPass env req st) := by
  unfold preconditionsPass; infer_instance

/-- Scenario A of the spec: "sales" absent, no primary shard given: the record
is created with `sharded = true` and the policy-chosen primary shard; the cache
entry is purged and the audit log written. -/
theorem run_scenario_a :
    run ⟨ClusterRole.ConfigServer, true, none, "shard0"⟩
      ⟨"sales", none, "majority"⟩ ⟨[], ["sales"], ["shard0"], []⟩ =
    (Outcome.ok, ⟨[⟨"sales", "shard0", true⟩], [], ["shard0"], []⟩,
      [Event.storeUpdate "sales", Event.lockAcquire "sales",
       Event.catalogEnable "sales", Event.lockRelease "sales",
       Event.auditLog "sales", Event.cachePurge "sales"]) := by decide

/-- Scenario B of the spec: "sales" exists with `sharded = false`: the
optimistic update matches, the record becomes sharded, and the Catalog Manager
is never invoked. -/
theorem run_scenario_b :
    run ⟨ClusterRole.ConfigServer, true, none, "shard0"⟩
      ⟨"sales", none, "majority"⟩
      ⟨[⟨"sales", "shard1", false⟩], ["sales"], ["shard0"], []⟩ =
    (Outcome.ok, ⟨[⟨"sales", "shard1", true⟩], [], ["shard0"], []⟩,
      [Event.storeUpdate "sales", Event.auditLog "sales",
       Event.cachePurge "sales"]) := by decide

/-! ### Helper lemmas about the optimistic update -/

lemma updateFirstMatch_fst_le_one (p : DatabaseRecord → Bool)
    (l : List DatabaseRecord) : (updateFirstMatch p l).1 ≤ 1 := by
  induction l with
  | nil => simp [updateFirstMatch]
  | cons r rs ih =>
    simp only [updateFirstMatch]
    split
    · simp
    · simpa using ih

lemma updateFirstMatch_fst_eq_one_iff (p : DatabaseRecord → Bool)
    (l : List DatabaseRecord) :
    (updateFirstMatch p l).1 = 1 ↔ ∃ r ∈ l, p r = true := by
  induction l with
  | nil => simp [updateFirstMatch]
  | cons r rs ih =>
    simp only [updateFirstMatch]
    split
    · simp_all
    · simp only [ih]
      simp_all

lemma updateFirstMatch_snd_of_fst_ne_one (p : DatabaseRecord → Bool)
    (l : List DatabaseRecord) (h : (updateFirstMatch p l).1 ≠ 1) :
    (updateFirstMatch p l).2 = l := by
  induction l with
  | nil => simp [updateFirstMatch]
  | cons r rs ih =>
    simp only [updateFirstMatch] at h ⊢
    split at h
    · simp at h
    · simp_all

lemma updateFirstMatch_names (p : DatabaseRecord → Bool)
    (l : List DatabaseRecord) :
    (updateFirstMatch p l).2.map (fun r => r.name) = l.map (fun r => r.name) := by
  induction l with
  | nil => simp [updateFirstMatch]
  | cons r rs ih =>
    simp only [updateFirstMatch]
    split
    · simp [setShardedTrue]
    · simpa using ih

lemma updateFirstMatch_frame (p : DatabaseRecord → Bool)
    (l : List DatabaseRecord) :
    List.Forall₂ (fun r r' => r'.name = r.name ∧
      r'.primaryShardId = r.primaryShardId ∧
      (r' = r ∨ (r' = setShardedTrue r ∧ p r = true))) l (updateFirstMatch p l).2 := by
  induction l with
  | nil => simp [updateFirstMatch]
  | cons r rs ih =>
    simp only [updateFirstMatch]
    split
    · exact List.Forall₂.cons (by simp_all [setShardedTrue]) (List.forall₂_same.2 (by simp))
    · exact List.Forall₂.cons (by simp) ih

lemma dbSharded_updateFirstMatch (p : DatabaseRecord → Bool)
    (l : List DatabaseRecord) (d : String)
    (hp : ∀ r, p r = true → r.name = d)
    (hnd : (l.map (fun r => r.name)).Nodup)
    (h1 : (updateFirstMatch p l).1 = 1) :
    dbSharded (updateFirstMatch p l).2 d = true := by
  induction l with
  | nil => simp [updateFirstMatch] at h1
  | cons r rs ih =>
    simp only [updateFirstMatch] at h1 ⊢
    by_cases hpr : p r = true
    · simp only [if_pos hpr]
      have hname : r.name = d := hp r hpr
      simp [dbSharded, findDb, setShardedTrue, hname]
    · simp only [if_neg hpr] at h1 ⊢
      have hex : ∃ r' ∈ rs, p r' = true :=
        (updateFirstMatch_fst_eq_one_iff p rs).1 h1
      obtain ⟨r', hr'mem, hr'p⟩ := hex
      have hrname : r.name ≠ d := by
        intro hcontra
        have : d ∈ rs.map (fun r => r.name) :=
          List.mem_map.2 ⟨r', hr'mem, hp r' hr'p⟩
        simp only [List.map_cons, List.nodup_cons] at hnd
        exact hnd.1 (hcontra ▸ this)
      have htail := ih (by simpa using (List.nodup_cons.1 (by simpa using hnd)).2) h1
      simpa [dbSharded, findDb, hrname] using htail

lemma findDb_map_markSharded (l : List DatabaseRecord) (d : String) :
    findDb (l.map (fun r => if r.name == d then { r with sharded := true } else r)) d =
      (findDb l d).map (fun r => if r.name == d then { r with sharded := true } else r) := by
  induction l with
  | nil => simp [findDb]
  | cons r rs ih =>
    have hname : (if r.name == d then { r with sharded := true } else r).name = r.name := by
      split <;> rfl
    simp only [findDb, List.map_cons, List.find?, hname] at ih ⊢
    cases hbeq : (r.name == d) with
    | true =>
      have hrd : r.name = d := by simpa using hbeq
      simp [hbeq, hrd]
    | false => simpa [hbeq] using ih

lemma dbSharded_catalogManagerEnableSharding (ps d sid : String) (sv : Bool)
    (l : List DatabaseRecord) :
    dbSharded (catalogManagerEnableSharding ps d sid sv l) d = true := by
  unfold catalogManagerEnableSharding
  cases hfind : l.find? (fun r => r.name == d) with
  | some r0 =>
    have hr0 := List.find?_some hfind
    simp only at hr0
    unfold dbSharded findDb
    rw [List.find?_map]
    have hcomp : ((fun r : DatabaseRecord => r.name == d) ∘ fun r =>
        if r.name == d then { r with sharded := true } else r) =
        (fun r : DatabaseRecord => r.name == d) := by
      funext r
      by_cases h : (r.name == d) = true
      · have hrd : r.name = d := by simpa using h
        simp [h, hrd]
      · have hrd : ¬ r.name = d := by simpa using h
        simp [h, hrd]
    rw [hcomp, hfind]
    have hrd0 : r0.name = d := by simpa using hr0
    simp [hrd0]
  | none =>
    simp [dbSharded, findDb, hfind]

/-! ### Helper lemmas about the body and `run` -/

lemma runBody_cache (env : Env) (d s : String) (st : ClusterState) :
    (runBody env d s st).2.1.cache = st.cache := by
  simp only [runBody]
  split
  · split
    · rfl
    · split <;> rfl
  · rfl

lemma runBody_registeredShards (env : Env) (d s : String) (st : ClusterState) :
    (runBody env d s st).2.1.registeredShards = st.registeredShards := by
  simp only [runBody]
  split
  · split
    · rfl
    · split <;> rfl
  · rfl

lemma runBody_lockHeld (env : Env) (d s : String) (st : ClusterState) :
    (runBody env d s st).2.1.lockHeld = st.lockHeld := by
  simp only [runBody]
  split
  · split
    · rfl
    · split <;> simp [List.erase_cons_head]
  · rfl

lemma runBody_trace_purge_count (env : Env) (d s : String) (st : ClusterState)
    (c : String) :
    (runBody env d s st).2.2.count (Event.cachePurge c) = 0 := by
  simp only [runBody]
  split
  · split
    · simp [List.count_cons, List.count_nil]
    · split <;> simp [List.count_cons, List.count_nil]
  · simp [List.count_cons, List.count_nil]

lemma runBody_trace_lock_balance (env : Env) (d s : String) (st : ClusterState)
    (r : String) :
    (runBody env d s st).2.2.count (Event.lockAcquire r) =
      (runBody env d s st).2.2.count (Event.lockRelease r) := by
  simp only [runBody]
  split
  · split
    · simp [List.count_cons, List.count_nil]
    · split <;> simp [List.count_cons, List.count_nil]
  · simp [List.count_cons, List.count_nil]

lemma run_lockHeld (env : Env) (req : Request) (st : ClusterState) :
    (run env req st).2.1.lockHeld = st.lockHeld := by
  simp only [run]
  split
  · rfl
  · split
    · rfl
    · split
      · rfl
      · split
        · rfl
        · split
          · rfl
          · simp [purgeDatabase, runBody_lockHeld]

lemma run_trace_lock_balance (env : Env) (req : Request) (st : ClusterState)
    (r : String) :
    (run env req st).2.2.count (Event.lockAcquire r) =
      (run env req st).2.2.count (Event.lockRelease r) := by
  simp only [run]
  split
  · rfl
  · split
    · rfl
    · split
      · rfl
      · split
        · rfl
        · split
          · rfl
          · have hb := runBody_trace_lock_balance env req.dbname (shardIdOf req) st r
            simp [List.count_append, hb]

lemma runBody_of_match (env : Env) (d s : String) (st : ClusterState)
    (h1 : (updateFirstMatch (updateFilter d s
        (shardIdIsValid st.registeredShards s)) st.store).1 = 1) :
    runBody env d s st = (Outcome.ok,
      { st with store := (updateFirstMatch (updateFilter d s
          (shardIdIsValid st.registeredShards s)) st.store).2 },
      [Event.storeUpdate d, Event.auditLog d]) := by
  simp [runBody, h1]

lemma runBody_of_miss_noLock (env : Env) (d s : String) (st : ClusterState)
    (h1 : (updateFirstMatch (updateFilter d s
        (shardIdIsValid st.registeredShards s)) st.store).1 ≠ 1)
    (hl : env.lockAvailable = false) :
    runBody env d s st = (Outcome.err ⟨ErrorCode.LockTimeout,
        "timed out waiting for " ++ d⟩,
      { st with store := (updateFirstMatch (updateFilter d s
          (shardIdIsValid st.registeredShards s)) st.store).2 },
      [Event.storeUpdate d]) := by
  simp [runBody, h1, hl]

lemma runBody_of_miss_cmError (env : Env) (d s : String) (st : ClusterState)
    (e : ErrorInfo)
    (h1 : (updateFirstMatch (updateFilter d s
        (shardIdIsValid st.registeredShards s)) st.store).1 ≠ 1)
    (hl : env.lockAvailable = true) (hcm : env.cmError = some e) :
    runBody env d s st = (Outcome.err e,
      { st with store := (updateFirstMatch (updateFilter d s
          (shardIdIsValid st.registeredShards s)) st.store).2 },
      [Event.storeUpdate d, Event.lockAcquire d, Event.catalogEnable d,
       Event.lockRelease d]) := by
  simp [runBody, h1, hl, hcm, List.erase_cons_head]

lemma runBody_of_miss_cmOk (env : Env) (d s : String) (st : ClusterState)
    (h1 : (updateFirstMatch (updateFilter d s
        (shardIdIsValid st.registeredShards s)) st.store).1 ≠ 1)
    (hl : env.lockAvailable = true) (hcm : env.cmError = none) :
    runBody env d s st = (Outcome.ok,
      { st with store := (catalogManagerEnableSharding env.policyShard d s
          (shardIdIsValid st.registeredShards s)
          (updateFirstMatch (updateFilter d s
            (shardIdIsValid st.registeredShards s)) st.store).2) },
      [Event.storeUpdate d, Event.lockAcquire d, Event.catalogEnable d,
       Event.lockRelease d, Event.auditLog d]) := by
  simp [runBody, h1, hl, hcm, List.erase_cons_head]

lemma run_of_preconditions (env : Env) (req : Request) (st : ClusterState)
    (h : preconditionsPass env req st) :
    run env req st =
      ((runBody env req.dbname (shardIdOf req) st).1,
       purgeDatabase req.dbname (runBody env req.dbname (shardIdOf req) st).2.1,
       (runBody env req.dbname (shardIdOf req) st).2.2 ++
         [Event.cachePurge req.dbname]) := by
  obtain ⟨h1, h2, h3, h4, h5, h6⟩ := h
  simp [run, h1, h2, h3, h4, h5, h6]

lemma run_registeredShards (env : Env) (req : Request) (st : ClusterState) :
    (run env req st).2.1.registeredShards = st.registeredShards := by
  simp only [run]
  split
  · rfl
  · split
    · rfl
    · split
      · rfl
      · split
        · rfl
        · split
          · rfl
          · simp [purgeDatabase, runBody_registeredShards]

lemma runBody_trace_storeUpdate_count (env : Env) (d s : String)
    (st : ClusterState) :
    (runBody env d s st).2.2.count (Event.storeUpdate d) = 1 := by
  simp only [runBody]
  split
  · split
    · simp [List.count_cons, List.count_nil]
    · split <;> simp [List.count_cons, List.count_nil]
  · simp [List.count_cons, List.count_nil]

lemma updateFilter_name (d s : String) (v : Bool) (r : DatabaseRecord)
    (h : updateFilter d s v r = true) : r.name = d := by
  simp [updateFilter] at h
  exact h.1

lemma catalogManagerEnableSharding_names_nodup (ps d sid : String) (sv : Bool)
    (l : List DatabaseRecord)
    (hnd : (l.map (fun r => r.name)).Nodup) :
    ((catalogManagerEnableSharding ps d sid sv l).map (fun r => r.name)).Nodup := by
  unfold catalogManagerEnableSharding
  cases hfind : l.find? (fun r => r.name == d) with
  | some r0 =>
    have hmap : ((l.map (fun r => if r.name == d then { r with sharded := true }
        else r)).map (fun r => r.name)) = l.map (fun r => r.name) := by
      rw [List.map_map]
      congr 1
      funext r
      simp only [Function.comp]
      split <;> rfl
    rw [hmap]
    exact hnd
  | none =>
    have hne : ∀ r ∈ l, r.name ≠ d := by
      intro r hr
      have := List.find?_eq_none.1 hfind r hr
      simpa using this
    rw [List.map_append]
    rw [List.nodup_append]
    refine ⟨hnd, by simp, ?_⟩
    intro x hx hxd
    simp only [List.map_cons, List.map_nil, List.mem_singleton] at hxd
    obtain ⟨r, hr, hrx⟩ := List.mem_map.1 hx
    exact hne r hr (by rw [hrx]; exact hxd)

lemma preconditionsPass_of_registeredShards_eq (env : Env) (req : Request)
    (st st' : ClusterState)
    (heq : st'.registeredShards = st.registeredShards)
    (h : preconditionsPass env req st) : preconditionsPass env req st' := by
  obtain ⟨h1, h2, h3, h4, h5, h6⟩ := h
  exact ⟨h1, h2, by rwa [heq], h4, h5, h6⟩

lemma run_ok_of_lock_cm (env : Env) (req : Request) (st : ClusterState)
    (h : preconditionsPass env req st)
    (hlock : env.lockAvailable = true) (hcm : env.cmError = none) :
    (run env req st).1 = Outcome.ok := by
  rw [run_of_preconditions env req st h]
  by_cases h1 : (updateFirstMatch (updateFilter req.dbname (shardIdOf req)
      (shardIdIsValid st.registeredShards (shardIdOf req))) st.store).1 = 1
  · rw [runBody_of_match env req.dbname (shardIdOf req) st h1]
  · rw [runBody_of_miss_cmOk env req.dbname (shardIdOf req) st h1 hlock hcm]

lemma run_dbSharded_of_lock_cm (env : Env) (req : Request) (st : ClusterState)
    (h : preconditionsPass env req st)
    (hlock : env.lockAvailable = true) (hcm : env.cmError = none)
    (hnd : (st.store.map (fun r => r.name)).Nodup) :
    dbSharded (run env req st).2.1.store req.dbname = true := by
  rw [run_of_preconditions env req st h]
  by_cases h1 : (updateFirstMatch (updateFilter req.dbname (shardIdOf req)
      (shardIdIsValid st.registeredShards (shardIdOf req))) st.store).1 = 1
  · rw [runBody_of_match env req.dbname (shardIdOf req) st h1]
    simp only [purgeDatabase]
    exact dbSharded_updateFirstMatch _ st.store req.dbname
      (fun r hr => updateFilter_name _ _ _ r hr) hnd h1
  · rw [runBody_of_miss_cmOk env req.dbname (shardIdOf req) st h1 hlock hcm]
    simp only [purgeDatabase]
    exact dbSharded_catalogManagerEnableSharding _ _ _ _ _

lemma run_names_nodup (env : Env) (req : Request) (st : ClusterState)
    (h : preconditionsPass env req st)
    (hlock : env.lockAvailable = true) (hcm : env.cmError = none)
    (hnd : (st.store.map (fun r => r.name)).Nodup) :
    ((run env req st).2.1.store.map (fun r => r.name)).Nodup := by
  rw [run_of_preconditions env req st h]
  by_cases h1 : (updateFirstMatch (updateFilter req.dbname (shardIdOf req)
      (shardIdIsValid st.registeredShards (shardIdOf req))) st.store).1 = 1
  · rw [runBody_of_match env req.dbname (shardIdOf req) st h1]
    simp only [purgeDatabase]
    rw [updateFirstMatch_names]
    exact hnd
  · rw [runBody_of_miss_cmOk env req.dbname (shardIdOf req) st h1 hlock hcm]
    simp only [purgeDatabase]
    rw [updateFirstMatch_snd_of_fst_ne_one _ _ h1]
    exact catalogManagerEnableSharding_names_nodup _ _ _ _ _ hnd

/-! ### C1: the cache entry after the call -/

/-- C1 counterexample: the claim includes validation/precondition errors among
the outcomes after which the cache entry for `dbName` is purged, but a call
rejected for non-majority write concern returns with the cache entry for
"sales" still present (the `ON_BLOCK_EXIT` purge is installed only after the
preconditions). -/
theorem c1_counterexample :
    (run ⟨ClusterRole.ConfigServer, true, none, "shard0"⟩
        ⟨"sales", none, "w1"⟩ ⟨[], ["sales"], ["shard0"], []⟩).2.1.cache =
      ["sales"] ∧
    (run ⟨ClusterRole.ConfigServer, true, none, "shard0"⟩
        ⟨"sales", none, "w1"⟩ ⟨[], ["sales"], ["shard0"], []⟩).1 =
      Outcome.err ⟨ErrorCode.InvalidOptions,
        "_configsvrEnableSharding must be called with majority writeConcern"⟩ := by
  decide

/-- C1 (amended): once the preconditions pass, for every outcome of the call
(success, lock-acquisition timeout, Catalog Manager error) the Catalog Cache
entry for `dbName` is absent immediately after the call returns; a call that
fails a precondition leaves the cache untouched. -/
theorem c1_cache_absent_after_call (env : Env) (req : Request)
    (st : ClusterState) (h : preconditionsPass env req st) :
    req.dbname ∉ (run env req st).2.1.cache := by
  rw [run_of_preconditions env req st h]
  simp [purgeDatabase, List.mem_filter]

/-- Witness for C1's amended theorem at a concrete input: an env where the
catalog manager fails, so the call errors, yet the entry is absent. -/
theorem c1_cache_absent_after_call_witness :
    preconditionsPass
      ⟨ClusterRole.ConfigServer, true, some ⟨ErrorCode.ShardNotFound, "no shards"⟩, "shard0"⟩
      ⟨"sales", none, "majority"⟩ ⟨[], ["sales"], ["shard0"], []⟩ ∧
    "sales" ∉ (run
      ⟨ClusterRole.ConfigServer, true, some ⟨ErrorCode.ShardNotFound, "no shards"⟩, "shard0"⟩
      ⟨"sales", none, "majority"⟩ ⟨[], ["sales"], ["shard0"], []⟩).2.1.cache := by
  refine ⟨by decide, ?_⟩
  exact c1_cache_absent_after_call _ _ _ (by decide)

/-! ### C2: the purge executes exactly once on every post-precondition path -/

/-- C2: once all preconditions have passed, the Catalog Cache purge for
`dbName` executes exactly once per call, on every exit path (normal return,
lock-acquisition error, Catalog Manager error). -/
theorem c2_purge_exactly_once (env : Env) (req : Request) (st : ClusterState)
    (h : preconditionsPass env req st) :
    (run env req st).2.2.count (Event.cachePurge req.dbname) = 1 := by
  rw [run_of_preconditions env req st h]
  simp [List.count_append, runBody_trace_purge_count]

/-- Witness for C2 at a concrete input: the lock-timeout path still purges
exactly once. -/
theorem c2_purge_exactly_once_witness :
    preconditionsPass ⟨ClusterRole.ConfigServer, false, none, "shard0"⟩
      ⟨"sales", none, "majority"⟩ ⟨[], ["sales"], ["shard0"], []⟩ ∧
    (run ⟨ClusterRole.ConfigServer, false, none, "shard0"⟩
      ⟨"sales", none, "majority"⟩
      ⟨[], ["sales"], ["shard0"], []⟩).2.2.count (Event.cachePurge "sales") = 1 := by
  refine ⟨by decide, ?_⟩
  exact c2_purge_exactly_once ⟨ClusterRole.ConfigServer, false, none, "shard0"⟩
    ⟨"sales", none, "majority"⟩ ⟨[], ["sales"], ["shard0"], []⟩ (by decide)

/-! ### C5: the distributed lock is never held past the call's return -/

/-- C5: whenever Phase 2 acquires the distributed lock on `dbName`, the lock is
released on every exit (success, Catalog Manager error, lock timeout never
acquires): after any call the set of held locks equals what it was before the
call, and every lock-acquire event in the trace is matched by a lock-release
event. -/
theorem c5_lock_released_on_every_exit (env : Env) (req : Request)
    (st : ClusterState) :
    (run env req st).2.1.lockHeld = st.lockHeld ∧
    ∀ r : String, (run env req st).2.2.count (Event.lockAcquire r) =
      (run env req st).2.2.count (Event.lockRelease r) :=
  ⟨run_lockHeld env req st, fun r => run_trace_lock_balance env req st r⟩

/-! ### C6: precondition order -/

/-- C6 counterexample: with both an invalid dbName ("inv.alid") and an
unregistered shard supplied, the call fails with BadValue — the shard-validity
check precedes dbName validation in the source — and not with the dbName
validation error the claim requires. -/
theorem c6_counterexample :
    (run ⟨ClusterRole.ConfigServer, true, none, "shard0"⟩
        ⟨"inv.alid", some "ghost", "majority"⟩ ⟨[], [], ["shard0"], []⟩).1 =
      Outcome.err ⟨ErrorCode.BadValue, "invalid shard name: " ++ "ghost"⟩ ∧
    validDBName "inv.alid" = false := by
  decide

/-- C6 (amended): the preconditions are checked before any mutation in the
order (1) authorization, (2) config-authority role, (3) majority write
concern, (4) requested-primary-shard validity, (5) dbName identifier
validation, then reserved-name exclusion, and the first failing check
determines the error returned — each failure leaves the state unchanged with
no effect traced; in particular, when both the dbName and the supplied shard
identifier are invalid, BadValue is returned, not the dbName validation
error. -/
theorem c6_precondition_order (env : Env) (auth : String → Bool)
    (req : Request) (st : ClusterState) :
    (auth req.dbname = false →
      enableShardingCall env auth req st =
        (Outcome.err ⟨ErrorCode.Unauthorized, "Unauthorized"⟩, st, [])) ∧
    (auth req.dbname = true →
      env.clusterRole ≠ ClusterRole.ConfigServer →
      enableShardingCall env auth req st =
        (Outcome.err ⟨ErrorCode.IllegalOperation,
          "_configsvrEnableSharding can only be run on config servers"⟩,
          st, [])) ∧
    (auth req.dbname = true →
      env.clusterRole = ClusterRole.ConfigServer →
      req.wMode ≠ "majority" →
      enableShardingCall env auth req st =
        (Outcome.err ⟨ErrorCode.InvalidOptions,
          "_configsvrEnableSharding must be called with majority writeConcern"⟩,
          st, [])) ∧
    (auth req.dbname = true →
      env.clusterRole = ClusterRole.ConfigServer →
      req.wMode = "majority" →
      req.primaryShard.isSome = true ∧
        shardIdIsValid st.registeredShards (shardIdOf req) = false →
      enableShardingCall env auth req st =
        (Outcome.err ⟨ErrorCode.BadValue,
          "invalid shard name: " ++ shardIdOf req⟩, st, [])) ∧
    (auth req.dbname = true →
      env.clusterRole = ClusterRole.ConfigServer →
      req.wMode = "majority" →
      ¬(req.primaryShard.isSome = true ∧
        shardIdIsValid st.registeredShards (shardIdOf req) = false) →
      validDBName req.dbname = false →
      enableShardingCall env auth req st =
        (Outcome.err ⟨ErrorCode.InvalidNamespace,
          "invalid db name specified: " ++ req.dbname⟩, st, [])) ∧
    (auth req.dbname = true →
      env.clusterRole = ClusterRole.ConfigServer →
      req.wMode = "majority" →
      ¬(req.primaryShard.isSome = true ∧
        shardIdIsValid st.registeredShards (shardIdOf req) = false) →
      validDBName req.dbname = true →
      req.dbname = "admin" ∨ req.dbname = "local" →
      enableShardingCall env auth req st =
        (Outcome.err ⟨ErrorCode.InvalidOptions,
          "can't shard " ++ req.dbname ++ " database"⟩, st, [])) := by
  refine ⟨?_, ?_, ?_, ?_, ?_, ?_⟩
  · intro hauth
    simp [enableShardingCall, checkAuthForCommand, hauth]
  · intro hauth hrole
    simp [enableShardingCall, checkAuthForCommand, run, hauth, hrole]
  · intro hauth hrole hwc
    simp [enableShardingCall, checkAuthForCommand, run, hauth, hrole, hwc]
  · intro hauth hrole hwc hshard
    simp [enableShardingCall, checkAuthForCommand, run, hauth, hrole, hwc, hshard]
  · intro hauth hrole hwc hshard hdb
    simp [enableShardingCall, checkAuthForCommand, run, hauth, hrole, hwc,
      hshard, hdb]
  · intro hauth hrole hwc hshard hdb hres
    simp [enableShardingCall, checkAuthForCommand, run, hauth, hrole, hwc,
      hshard, hdb, hres]

/-- Witness for C6's amended theorem: the BadValue conjunct applied at a
concrete request with both the dbName and the shard invalid, discharging the
earlier checks. -/
theorem c6_precondition_order_witness :
    enableShardingCall ⟨ClusterRole.ConfigServer, true, none, "shard0"⟩
      (fun _ => true) ⟨"inv.alid", some "ghost", "majority"⟩
      ⟨[], [], ["shard0"], []⟩ =
      (Outcome.err ⟨ErrorCode.BadValue, "invalid shard name: " ++ "ghost"⟩,
        ⟨[], [], ["shard0"], []⟩, []) :=
  (c6_precondition_order ⟨ClusterRole.ConfigServer, true, none, "shard0"⟩
    (fun _ => true) ⟨"inv.alid", some "ghost", "majority"⟩
    ⟨[], [], ["shard0"], []⟩).2.2.2.1 rfl rfl rfl (by decide)

/-! ### C7: supplied shard identifier must be valid -/

/-- C7: if a primary shard is supplied, the call fails with BadValue when the
identifier does not name a currently registered shard (shard validity is
modelled from the spec, since `ShardId::isValid` is not under `src/`): past the
role and write-concern checks the call returns the BadValue error with the
state unchanged and no effects. -/
theorem c7_invalid_shard_rejected (env : Env) (req : Request)
    (st : ClusterState) (s : String)
    (hrole : env.clusterRole = ClusterRole.ConfigServer)
    (hwc : req.wMode = "majority")
    (hshard : req.primaryShard = some s)
    (hinvalid : shardIdIsValid st.registeredShards s = false) :
    run env req st =
      (Outcome.err ⟨ErrorCode.BadValue, "invalid shard name: " ++ s⟩, st, []) := by
  have hsid : shardIdOf req = s := by simp [shardIdOf, hshard]
  simp [run, hrole, hwc, hshard, hsid, hinvalid]

/-- Witness for C7 at a concrete input: "ghost" is not a registered shard. -/
theorem c7_invalid_shard_rejected_witness :
    run ⟨ClusterRole.ConfigServer, true, none, "shard0"⟩
      ⟨"sales", some "ghost", "majority"⟩ ⟨[], [], ["shard0"], []⟩ =
      (Outcome.err ⟨ErrorCode.BadValue, "invalid shard name: " ++ "ghost"⟩,
        ⟨[], [], ["shard0"], []⟩, []) :=
  c7_invalid_shard_rejected ⟨ClusterRole.ConfigServer, true, none, "shard0"⟩
    ⟨"sales", some "ghost", "majority"⟩ ⟨[], [], ["shard0"], []⟩ "ghost"
    rfl rfl rfl (by decide)

/-! ### C8: reserved-name rejection -/

/-- C8 counterexample: with dbName "admin" but a non-majority write concern the
call fails with the write-concern error, not the reserved-name error, so the
reserved-name rejection does not hold regardless of the durability argument. -/
theorem c8_counterexample :
    (run ⟨ClusterRole.ConfigServer, true, none, "shard0"⟩
        ⟨"admin", none, "w1"⟩ ⟨[], [], ["shard0"], []⟩).1 =
      Outcome.err ⟨ErrorCode.InvalidOptions,
        "_configsvrEnableSharding must be called with majority writeConcern"⟩ ∧
    "_configsvrEnableSharding must be called with majority writeConcern" ≠
      "can't shard " ++ "admin" ++ " database" := by
  decide

/-- C8 (amended): on a config server, with majority write concern and any shard
argument passing the shard-validity check, calling with the reserved "admin" or
"local" database always fails with the reserved-name error (InvalidOptions,
"can't shard ... database") before any mutation: the state is unchanged and no
effect is traced. -/
theorem c8_reserved_name_rejected (env : Env) (req : Request)
    (st : ClusterState)
    (hrole : env.clusterRole = ClusterRole.ConfigServer)
    (hwc : req.wMode = "majority")
    (hshard : ¬(req.primaryShard.isSome = true ∧
      shardIdIsValid st.registeredShards (shardIdOf req) = false))
    (hdb : req.dbname = "admin" ∨ req.dbname = "local") :
    run env req st = (Outcome.err ⟨ErrorCode.InvalidOptions,
      "can't shard " ++ req.dbname ++ " database"⟩, st, []) := by
  rcases hdb with h | h
  · have hv : validDBName "admin" = true := by decide
    simp [run, hrole, hwc, hshard, h, hv]
  · have hv : validDBName "local" = true := by decide
    simp [run, hrole, hwc, hshard, h, hv]

/-- Witness for C8's amended theorem on "admin" with a valid supplied shard. -/
theorem c8_reserved_name_rejected_witness :
    run ⟨ClusterRole.ConfigServer, true, none, "shard0"⟩
      ⟨"admin", some "shard0", "majority"⟩ ⟨[], [], ["shard0"], []⟩ =
      (Outcome.err ⟨ErrorCode.InvalidOptions,
        "can't shard " ++ "admin" ++ " database"⟩,
        ⟨[], [], ["shard0"], []⟩, []) :=
  c8_reserved_name_rejected ⟨ClusterRole.ConfigServer, true, none, "shard0"⟩
    ⟨"admin", some "shard0", "majority"⟩ ⟨[], [], ["shard0"], []⟩
    rfl rfl (by decide) (Or.inl rfl)

/-! ### C9: unauthorized callers cause no effects -/

/-- C9: a call by an unauthorized caller returns Unauthorized before any
effect: the state (store, cache, locks) is unchanged and the effect trace is
empty, so no Config Database Store write, no lock acquisition and no cache
purge happen. -/
theorem c9_unauthorized_no_effects (env : Env) (auth : String → Bool)
    (req : Request) (st : ClusterState) (h : auth req.dbname = false) :
    enableShardingCall env auth req st =
      (Outcome.err ⟨ErrorCode.Unauthorized, "Unauthorized"⟩, st, []) := by
  simp [enableShardingCall, checkAuthForCommand, h]

/-- Witness for C9 at a concrete unauthorized client. -/
theorem c9_unauthorized_no_effects_witness :
    enableShardingCall ⟨ClusterRole.ConfigServer, true, none, "shard0"⟩
      (fun _ => false) ⟨"sales", none, "majority"⟩
      ⟨[], ["sales"], ["shard0"], []⟩ =
      (Outcome.err ⟨ErrorCode.Unauthorized, "Unauthorized"⟩,
        ⟨[], ["sales"], ["shard0"], []⟩, []) :=
  c9_unauthorized_no_effects ⟨ClusterRole.ConfigServer, true, none, "shard0"⟩
    (fun _ => false) ⟨"sales", none, "majority"⟩
    ⟨[], ["sales"], ["shard0"], []⟩ rfl

/-! ### C10: the optimistic update touches only the `sharded` field -/

/-- C10: the Phase 1 optimistic update modifies only the `sharded` field of the
matched record: every record of the updated store has the same name and
primaryShardId as the corresponding old record and is either unchanged or
exactly the old record with `sharded` set to true; and when no primary shard is
requested the filter tests only the name, so a record with any existing
primaryShardId matches and keeps its primary shard. -/
theorem c10_update_frame (d s : String) (v : Bool) (l : List DatabaseRecord) :
    List.Forall₂ (fun r r' => r'.name = r.name ∧
      r'.primaryShardId = r.primaryShardId ∧
      (r' = r ∨ (r' = setShardedTrue r ∧ updateFilter d s v r = true))) l
      (updateFirstMatch (updateFilter d s v) l).2 ∧
    ∀ r : DatabaseRecord, updateFilter d s false r = (r.name == d) := by
  refine ⟨updateFirstMatch_frame _ l, ?_⟩
  intro r
  simp [updateFilter]

/-! ### C3: optimistic update, then locked fallback -/

/-- C3: once the preconditions pass, the coordinator issues exactly one
conditional update (traced once; at most one document matched, upsert
disallowed so a miss writes nothing): if the matched count is 1 the call
succeeds without acquiring the distributed lock or invoking the Catalog
Manager, and if it is 0 the call acquires the lock on dbName and invokes the
Catalog Manager's enableSharding (when the lock is available; otherwise the
lock error is the call's outcome). -/
theorem c3_two_phase_protocol (env : Env) (req : Request) (st : ClusterState)
    (h : preconditionsPass env req st) :
    (updateFirstMatch (updateFilter req.dbname (shardIdOf req)
        (shardIdIsValid st.registeredShards (shardIdOf req))) st.store).1 ≤ 1 ∧
    (run env req st).2.2.count (Event.storeUpdate req.dbname) = 1 ∧
    ((updateFirstMatch (updateFilter req.dbname (shardIdOf req)
        (shardIdIsValid st.registeredShards (shardIdOf req))) st.store).1 = 1 →
      (run env req st).1 = Outcome.ok ∧
      Event.lockAcquire req.dbname ∉ (run env req st).2.2 ∧
      Event.catalogEnable req.dbname ∉ (run env req st).2.2) ∧
    ((updateFirstMatch (updateFilter req.dbname (shardIdOf req)
        (shardIdIsValid st.registeredShards (shardIdOf req))) st.store).1 ≠ 1 →
      (updateFirstMatch (updateFilter req.dbname (shardIdOf req)
        (shardIdIsValid st.registeredShards (shardIdOf req))) st.store).2 = st.store ∧
      (env.lockAvailable = true →
        Event.lockAcquire req.dbname ∈ (run env req st).2.2 ∧
        Event.catalogEnable req.dbname ∈ (run env req st).2.2) ∧
      (env.lockAvailable = false →
        (run env req st).1 = Outcome.err ⟨ErrorCode.LockTimeout,
          "timed out waiting for " ++ req.dbname⟩)) := by
  rw [run_of_preconditions env req st h]
  refine ⟨updateFirstMatch_fst_le_one _ _, ?_, ?_, ?_⟩
  · simp [List.count_append, runBody_trace_storeUpdate_count,
      List.count_cons, List.count_nil]
  · intro h1
    rw [runBody_of_match env req.dbname (shardIdOf req) st h1]
    simp
  · intro h1
    refine ⟨updateFirstMatch_snd_of_fst_ne_one _ _ h1, ?_, ?_⟩
    · intro hl
      cases hcm : env.cmError with
      | some e =>
        rw [runBody_of_miss_cmError env req.dbname (shardIdOf req) st e h1 hl hcm]
        simp
      | none =>
        rw [runBody_of_miss_cmOk env req.dbname (shardIdOf req) st h1 hl hcm]
        simp
    · intro hl
      rw [runBody_of_miss_noLock env req.dbname (shardIdOf req) st h1 hl]

/-- Witness for C3 at a concrete input: an existing unsharded record for
"sales" makes the optimistic update match, and the call succeeds with no lock
acquisition and no Catalog Manager invocation. -/
theorem c3_two_phase_protocol_witness :
    (run ⟨ClusterRole.ConfigServer, true, none, "shard0"⟩
        ⟨"sales", none, "majority"⟩
        ⟨[⟨"sales", "shard1", false⟩], [], ["shard0"], []⟩).1 = Outcome.ok ∧
    Event.lockAcquire "sales" ∉ (run ⟨ClusterRole.ConfigServer, true, none, "shard0"⟩
        ⟨"sales", none, "majority"⟩
        ⟨[⟨"sales", "shard1", false⟩], [], ["shard0"], []⟩).2.2 ∧
    Event.catalogEnable "sales" ∉ (run ⟨ClusterRole.ConfigServer, true, none, "shard0"⟩
        ⟨"sales", none, "majority"⟩
        ⟨[⟨"sales", "shard1", false⟩], [], ["shard0"], []⟩).2.2 :=
  (c3_two_phase_protocol ⟨ClusterRole.ConfigServer, true, none, "shard0"⟩
    ⟨"sales", none, "majority"⟩
    ⟨[⟨"sales", "shard1", false⟩], [], ["shard0"], []⟩ (by decide)).2.2.1 (by decide)

/-! ### C4: idempotency -/

/-- C4: with the preconditions satisfied, the lock available and the Catalog
Manager succeeding, running the call twice in sequence with the same arguments
succeeds both times and leaves the database record with `sharded = true` after
either call (the second call is a no-op success; the optimistic filter matches
on field presence, not on the current value of `sharded`, so an already-sharded
record still matches). -/
theorem c4_idempotent_enable (env : Env) (req : Request) (st : ClusterState)
    (h : preconditionsPass env req st)
    (hlock : env.lockAvailable = true) (hcm : env.cmError = none)
    (hnd : (st.store.map (fun r => r.name)).Nodup) :
    (run env req st).1 = Outcome.ok ∧
    dbSharded (run env req st).2.1.store req.dbname = true ∧
    (run env req (run env req st).2.1).1 = Outcome.ok ∧
    dbSharded (run env req (run env req st).2.1).2.1.store req.dbname = true := by
  have hst1 : preconditionsPass env req (run env req st).2.1 :=
    preconditionsPass_of_registeredShards_eq env req st _
      (run_registeredShards env req st) h
  have hnd1 := run_names_nodup env req st h hlock hcm hnd
  exact ⟨run_ok_of_lock_cm env req st h hlock hcm,
    run_dbSharded_of_lock_cm env req st h hlock hcm hnd,
    run_ok_of_lock_cm env req _ hst1 hlock hcm,
    run_dbSharded_of_lock_cm env req _ hst1 hlock hcm hnd1⟩

/-- Witness for C4 at a concrete input: enabling sharding on an absent "sales"
database twice with the same requested primary shard. -/
theorem c4_idempotent_enable_witness :
    (run ⟨ClusterRole.ConfigServer, true, none, "shard0"⟩
        ⟨"sales", some "shard0", "majority"⟩ ⟨[], [], ["shard0"], []⟩).1 =
      Outcome.ok ∧
    dbSharded (run ⟨ClusterRole.ConfigServer, true, none, "shard0"⟩
        ⟨"sales", some "shard0", "majority"⟩
        ⟨[], [], ["shard0"], []⟩).2.1.store "sales" = true ∧
    (run ⟨ClusterRole.ConfigServer, true, none, "shard0"⟩
        ⟨"sales", some "shard0", "majority"⟩
        (run ⟨ClusterRole.ConfigServer, true, none, "shard0"⟩
          ⟨"sales", some "shard0", "majority"⟩
          ⟨[], [], ["shard0"], []⟩).2.1).1 = Outcome.ok ∧
    dbSharded (run ⟨ClusterRole.ConfigServer, true, none, "shard0"⟩
        ⟨"sales", some "shard0", "majority"⟩
        (run ⟨ClusterRole.ConfigServer, true, none, "shard0"⟩
          ⟨"sales", some "shard0", "majority"⟩
          ⟨[], [], ["shard0"], []⟩).2.1).2.1.store "sales" = true :=
  c4_idempotent_enable ⟨ClusterRole.ConfigServer, true, none, "shard0"⟩
    ⟨"sales", some "shard0", "majority"⟩ ⟨[], [], ["shard0"], []⟩
    (by decide) rfl rfl (by decide)

end ConfigsvrEnableSharding
